import Mathlib

/-!
Shallow embedding of the FrameFill canvas-compositing code.

Numeric values are modelled as rationals (`ℚ`): every number the render
pipeline manipulates is produced from integer DOM inputs and image
dimensions by `+ - * /`, `Math.round` and `Math.max`, all of which are
exact on the rationals for these inputs.  `Math.round` is modelled by
`jsRound` (round half towards positive infinity, JavaScript's rule).

Canvas 2D side effects are modelled as traces: each drawing helper
returns the list of context operations it issues, in order, and the
mutable context state (filter, fillStyle, strokeStyle, lineWidth) is
recovered by folding `applyOp` over a trace.
-/

/-- JavaScript `Math.round`: round half away towards positive infinity. -/
def jsRound (q : ℚ) : ℤ := ⌊q + 1/2⌋

/-- Background variants selected by the radio buttons (`'color'` / `'image'`). -/
inductive BackgroundType where
  | color
  | image
deriving DecidableEq, Repr

/-- Border settings object returned by `getBorderSettings` (uiControls.js). -/
structure BorderSettings where
  width : ℚ
  color : String
deriving DecidableEq, Repr

/-- Settings object returned by `getCanvasSettings` (canvasRenderer module). -/
structure CanvasSettings where
  width : ℚ
  height : ℚ
  scale : ℚ
  backgroundColor : String
  backgroundType : BackgroundType
  border : BorderSettings
deriving DecidableEq, Repr

/-- A decoded source image: the drawable handle with its pixel dimensions. -/
structure SourceImage where
  width : ℚ
  height : ℚ
deriving DecidableEq, Repr

/-- One canvas-2D context operation, with its arguments. -/
inductive CanvasOp where
  | clearRect (x y w h : ℚ)
  | setFillStyle (c : String)
  | fillRect (x y w h : ℚ)
  | setFilter (f : String)
  | drawImage (x y w h : ℚ)
  | setStrokeStyle (c : String)
  | setLineWidth (w : ℚ)
  | strokeRect (x y w h : ℚ)
deriving DecidableEq, Repr

/-- Mutable context state carried by a canvas 2D context. -/
structure CtxState where
  filter : String
  fillStyle : String
  strokeStyle : String
  lineWidth : ℚ
deriving DecidableEq, Repr

/-- Effect of one operation on the context state (draw calls touch pixels only). -/
def applyOp (st : CtxState) : CanvasOp → CtxState
  | .setFilter f => { st with filter := f }
  | .setFillStyle c => { st with fillStyle := c }
  | .setStrokeStyle c => { st with strokeStyle := c }
  | .setLineWidth w => { st with lineWidth := w }
  | _ => st

/-- Effect of a whole trace on the context state. -/
def applyOps (st : CtxState) (ops : List CanvasOp) : CtxState :=
  ops.foldl applyOp st

/-- Whether an operation is a stroke-rectangle call. -/
def isStrokeRect : CanvasOp → Bool
  | .strokeRect _ _ _ _ => true
  | _ => false

/-- Whether an operation is a draw-image call. -/
def isDrawImage : CanvasOp → Bool
  | .drawImage _ _ _ _ => true
  | _ => false

/-- Source `drawBackground(color, width, height)`: clear the canvas, set the
fill color, fill the full rectangle. -/
def drawBackground (color : String) (width height : ℚ) : List CanvasOp :=
  [.clearRect 0 0 width height, .setFillStyle color, .fillRect 0 0 width height]

/-- Source `calculateScaledDimensions(originalWidth, originalHeight, scale)`:
`scaleFactor = scale / 100`, dimensions rounded with `Math.round`. -/
def calculateScaledDimensions (originalWidth originalHeight scale : ℚ) : ℤ × ℤ :=
  let scaleFactor := scale / 100
  (jsRound (originalWidth * scaleFactor), jsRound (originalHeight * scaleFactor))

/-- Source `calculateCenterPosition(canvasWidth, canvasHeight, imageWidth, imageHeight)`. -/
def calculateCenterPosition (canvasWidth canvasHeight imageWidth imageHeight : ℚ) : ℤ × ℤ :=
  (jsRound ((canvasWidth - imageWidth) / 2), jsRound ((canvasHeight - imageHeight) / 2))

/-- Source `calculateBlurScale(imageWidth, imageHeight, canvasWidth, canvasHeight)`:
the larger of the two axis ratios, so the image covers the whole canvas. -/
def calculateBlurScale (imageWidth imageHeight canvasWidth canvasHeight : ℚ) : ℚ :=
  let scaleX := canvasWidth / imageWidth
  let scaleY := canvasHeight / imageHeight
  max scaleX scaleY

/-- Source `drawBlurredBackground(image, canvasWidth, canvasHeight)`: guarded on a
present image; clears, turns the blur filter on, draws the cover-scaled centered
image, and resets the filter to `'none'`. -/
def drawBlurredBackground (image : Option SourceImage) (canvasWidth canvasHeight : ℚ) :
    List CanvasOp :=
  match image with
  | none => []
  | some img =>
    let scale := calculateBlurScale img.width img.height canvasWidth canvasHeight
    let scaledWidth := img.width * scale
    let scaledHeight := img.height * scale
    let x := (canvasWidth - scaledWidth) / 2
    let y := (canvasHeight - scaledHeight) / 2
    [.clearRect 0 0 canvasWidth canvasHeight,
     .setFilter "blur(10px)",
     .drawImage x y scaledWidth scaledHeight,
     .setFilter "none"]

/-- Source `drawBackgroundByType(backgroundType, backgroundColor, image, w, h)`:
the image variant runs only when the type is `'image'` and an image is present;
every other case falls through to the color variant. -/
def drawBackgroundByType (backgroundType : BackgroundType) (backgroundColor : String)
    (image : Option SourceImage) (canvasWidth canvasHeight : ℚ) : List CanvasOp :=
  match backgroundType, image with
  | .image, some img => drawBlurredBackground (some img) canvasWidth canvasHeight
  | _, _ => drawBackground backgroundColor canvasWidth canvasHeight

/-- Source `drawImageBorder(imagePosition, imageSize, borderSettings)`: returns
without any call when the width is exactly `0`; otherwise sets stroke style and
line width and issues one stroke-rectangle outset by half the border width. -/
def drawImageBorder (imagePosition : ℚ × ℚ) (imageSize : ℚ × ℚ)
    (borderSettings : BorderSettings) : List CanvasOp :=
  if borderSettings.width = 0 then []
  else
    let x := imagePosition.1 - borderSettings.width / 2
    let y := imagePosition.2 - borderSettings.width / 2
    let width := imageSize.1 + borderSettings.width
    let height := imageSize.2 + borderSettings.width
    [.setStrokeStyle borderSettings.color,
     .setLineWidth borderSettings.width,
     .strokeRect x y width height]

/-- Source `drawImageOnCanvas(image, scale, canvasWidth, canvasHeight)`: draws
the scaled image at the centered position. -/
def drawImageOnCanvas (image : SourceImage) (scale canvasWidth canvasHeight : ℚ) :
    List CanvasOp :=
  let sd := calculateScaledDimensions image.width image.height scale
  let p := calculateCenterPosition canvasWidth canvasHeight (sd.1 : ℚ) (sd.2 : ℚ)
  [.drawImage (p.1 : ℚ) (p.2 : ℚ) (sd.1 : ℚ) (sd.2 : ℚ)]

/-- Source `updatePreview()` (border-aware variant): returns the canvas
dimensions set by `updateCanvasDimensions` together with the trace of context
operations of one preview pass.  `imageElement` is the decoded image handle,
`uploadedImage` whether the uploaded data-URL is present; the foreground runs
only when both are available. -/
def updatePreview (settings : CanvasSettings) (imageElement : Option SourceImage)
    (uploadedImage : Bool) : (ℚ × ℚ) × List CanvasOp :=
  let dims := (settings.width, settings.height)
  let bg := drawBackgroundByType settings.backgroundType settings.backgroundColor
    imageElement settings.width settings.height
  let fg := match imageElement, uploadedImage with
    | some img, true =>
      let sd := calculateScaledDimensions img.width img.height settings.scale
      let imagePosition := calculateCenterPosition settings.width settings.height
        (sd.1 : ℚ) (sd.2 : ℚ)
      drawImageOnCanvas img settings.scale settings.width settings.height ++
        (if settings.border.width > 0 then
          drawImageBorder ((imagePosition.1 : ℚ), (imagePosition.2 : ℚ))
            ((sd.1 : ℚ), (sd.2 : ℚ)) settings.border
        else [])
    | _, _ => []
  (dims, bg ++ fg)

/-- Source `createDownloadCanvas(settings)`: a fresh canvas sized from the
settings. -/
def createDownloadCanvas (settings : CanvasSettings) : ℚ × ℚ :=
  (settings.width, settings.height)

/-- Source `renderToDownloadCanvas(canvas, image, settings)` (downloadManager):
clear, fill with the background color, draw the scaled centered image.  The
export path reads neither `backgroundType` nor `border`. -/
def renderToDownloadCanvas (image : SourceImage) (settings : CanvasSettings) :
    List CanvasOp :=
  let scaleFactor := settings.scale / 100
  let scaledWidth := jsRound (image.width * scaleFactor)
  let scaledHeight := jsRound (image.height * scaleFactor)
  let x := jsRound ((settings.width - (scaledWidth : ℚ)) / 2)
  let y := jsRound ((settings.height - (scaledHeight : ℚ)) / 2)
  [.clearRect 0 0 settings.width settings.height,
   .setFillStyle settings.backgroundColor,
   .fillRect 0 0 settings.width settings.height,
   .drawImage (x : ℚ) (y : ℚ) (scaledWidth : ℚ) (scaledHeight : ℚ)]

/-- A JavaScript number restricted to the values the blur-scale computation can
produce: a finite (here exact rational) value, an infinity, or `NaN`.  IEEE
rounding of finite results is not modelled; division by zero and the infinite
results it produces are exact in IEEE 754 and are modelled faithfully. -/
inductive JSNum where
  | nan
  | posInf
  | negInf
  | fin (q : ℚ)
deriving DecidableEq, Repr

/-- JavaScript division of two finite numbers: `a / 0` is `NaN` when `a = 0`
and a sign-matching infinity otherwise (the model has no negative zero). -/
def jsDivQ (a b : ℚ) : JSNum :=
  if b = 0 then
    if a = 0 then .nan else if 0 < a then .posInf else .negInf
  else .fin (a / b)

/-- JavaScript `Math.max` on two such numbers: `NaN` is absorbing, `+Infinity`
dominates, `-Infinity` is the identity. -/
def jsMax : JSNum → JSNum → JSNum
  | .nan, _ => .nan
  | _, .nan => .nan
  | .posInf, _ => .posInf
  | _, .posInf => .posInf
  | .negInf, y => y
  | x, .negInf => x
  | .fin a, .fin b => .fin (max a b)

/-- Source `calculateBlurScale` rendered over JavaScript numbers, keeping the
division-by-zero behaviour: no guard precedes the two divisions. -/
def jsCalculateBlurScale (imageWidth imageHeight canvasWidth canvasHeight : ℚ) : JSNum :=
  let scaleX := jsDivQ canvasWidth imageWidth
  let scaleY := jsDivQ canvasHeight imageHeight
  jsMax scaleX scaleY

/-- Allowed MIME types in imageProcessor.js (`ALLOWED_TYPES`). -/
def ALLOWED_TYPES : List String :=
  ["image/jpeg", "image/jpg", "image/png", "image/gif", "image/webp"]

/-- Maximum upload size in imageProcessor.js (`MAX_FILE_SIZE`, 5 MB). -/
def MAX_FILE_SIZE : ℕ := 5 * 1024 * 1024

/-- The two fields of a `File` object that validation reads. -/
structure JSFile where
  type : String
  size : ℕ
deriving DecidableEq, Repr

/-- Source `validateImageFile(file)`: rejects a type outside `ALLOWED_TYPES`,
then a size above `MAX_FILE_SIZE`, and accepts otherwise. -/
def validateImageFile (file : JSFile) : Bool :=
  if ¬ (ALLOWED_TYPES.contains file.type) then false
  else if file.size > MAX_FILE_SIZE then false
  else true

/-- Observable outcome of `handleImageUpload` before any asynchronous work. -/
inductive UploadOutcome where
  | noFile
  | rejected
  | decodeStarted
deriving DecidableEq, Repr

/-- Source `handleImageUpload(event)` up to its first asynchronous step: with no
file it returns; with an invalid file it alerts and returns; only otherwise
does it call `readFileAsDataURL` and start decoding. -/
def handleImageUpload (file : Option JSFile) : UploadOutcome :=
  match file with
  | none => .noFile
  | some f => if ¬ validateImageFile f then .rejected else .decodeStarted

/-- Size bounds from uiControls.js. -/
def MIN_SIZE : ℤ := 100

/-- Size bounds from uiControls.js. -/
def MAX_SIZE : ℤ := 2000

/-- Result of `parseInt` on a text field: an integer, or `none` for `NaN`. -/
abbrev ParsedInt := Option ℤ

/-- Source `validateSizeInput(value)` applied to a `parseInt` result: `NaN`
fails the `isNaN` check; an integer passes the `Math.floor` check and is then
range-checked against `[MIN_SIZE, MAX_SIZE]`. -/
def validateSizeInput (value : ParsedInt) : Bool :=
  match value with
  | none => false
  | some v => decide (MIN_SIZE ≤ v ∧ v ≤ MAX_SIZE)

/-- Border-width bounds from uiControls.js. -/
def MIN_BORDER_WIDTH : ℤ := 0

/-- Border-width bounds from uiControls.js. -/
def MAX_BORDER_WIDTH : ℤ := 50

/-- Source `validateBorderWidth(value)` applied to a `parseInt` result: `NaN`
fails the `isNaN` check; an integer passes the `Math.floor` check and is then
range-checked against `[MIN_BORDER_WIDTH, MAX_BORDER_WIDTH]`. -/
def validateBorderWidth (value : ParsedInt) : Bool :=
  match value with
  | none => false
  | some v => decide (MIN_BORDER_WIDTH ≤ v ∧ v ≤ MAX_BORDER_WIDTH)

/-- One settings snapshot read by `getCanvasSettings` (via `getBorderSettings`
for the border field) at a render call; `none` models a `NaN` `parseInt`. -/
structure RenderCall where
  width : ParsedInt
  height : ParsedInt
  scale : ℤ
  borderWidth : ParsedInt
deriving DecidableEq, Repr

/-- State of the numeric controls: current `parseInt` of each field, the
number of alerts shown, and the settings snapshots passed to renders so far. -/
structure UIState where
  widthVal : ParsedInt
  heightVal : ParsedInt
  scaleVal : ℤ
  borderWidthVal : ParsedInt
  alerts : ℕ
  renders : List RenderCall
deriving DecidableEq, Repr

/-- Settings snapshot `getCanvasSettings` reads from the DOM at render time. -/
def getSettingsSnapshot (s : UIState) : RenderCall :=
  ⟨s.widthVal, s.heightVal, s.scaleVal, s.borderWidthVal⟩

/-- One `updatePreview()` call: record the snapshot read from the DOM. -/
def recordRender (s : UIState) : UIState :=
  { s with renders := s.renders ++ [getSettingsSnapshot s] }

/-- Input events on the controls the cited handlers are bound to: typing in the
width/height or border-width field (`input`), leaving it (`blur`), and moving
the scale slider (`input`). -/
inductive UIEvent where
  | editWidth (v : ParsedInt)
  | blurWidth
  | editHeight (v : ParsedInt)
  | blurHeight
  | editScale (v : ℤ)
  | editBorderWidth (v : ParsedInt)
  | blurBorderWidth
deriving DecidableEq, Repr

/-- Event dispatch, from the uiControls.js handlers: `handleSizeChange` and
`handleBorderWidthChange` render only when the new value parses and validates;
`handleSizeBlur` and `handleBorderWidthBlur` alert, reset the field to its
default (800 / 600 / 10) and render when the value is invalid;
`handleScaleChange` renders unconditionally. -/
def step (s : UIState) : UIEvent → UIState
  | .editWidth v =>
    let s := { s with widthVal := v }
    if v.isSome ∧ validateSizeInput v then recordRender s else s
  | .blurWidth =>
    if validateSizeInput s.widthVal then s
    else recordRender { s with widthVal := some 800, alerts := s.alerts + 1 }
  | .editHeight v =>
    let s := { s with heightVal := v }
    if v.isSome ∧ validateSizeInput v then recordRender s else s
  | .blurHeight =>
    if validateSizeInput s.heightVal then s
    else recordRender { s with heightVal := some 600, alerts := s.alerts + 1 }
  | .editScale v =>
    recordRender { s with scaleVal := v }
  | .editBorderWidth v =>
    let s := { s with borderWidthVal := v }
    if v.isSome ∧ validateBorderWidth v then recordRender s else s
  | .blurBorderWidth =>
    if validateBorderWidth s.borderWidthVal then s
    else recordRender { s with borderWidthVal := some 10, alerts := s.alerts + 1 }

/-- Initial control values (800 × 600 at 100%, border width 10 — the defaults
the blur handlers reset to and `getBorderSettings` falls back to). -/
def initState : UIState := ⟨some 800, some 600, 100, some 10, 0, []⟩

/-- Run a sequence of input events from the initial state. -/
def runUI (evs : List UIEvent) : UIState :=
  evs.foldl step initState

lemma jsRound_intCast (n : ℤ) : jsRound (n : ℚ) = n := by
  unfold jsRound
  rw [Int.floor_int_add]
  norm_num

lemma jsRound_nonneg {q : ℚ} (h : 0 ≤ q) : 0 ≤ jsRound q := by
  unfold jsRound
  exact Int.le_floor.mpr (by push_cast; linarith)

/-- C2: for `naturalW, naturalH > 0` and `scalePercent ∈ [25,200]`,
`calculateScaledDimensions` returns exactly the rounded products
`(round(naturalW·s/100), round(naturalH·s/100))`, both components are
nonnegative, and at `scalePercent = 100` it returns the input dimensions
unchanged. -/
theorem C2_calculateScaledDimensions_spec (w h s : ℤ) (hw : 0 < w) (hh : 0 < h)
    (hs1 : 25 ≤ s) (hs2 : s ≤ 200) :
    calculateScaledDimensions (w : ℚ) (h : ℚ) (s : ℚ) =
      (jsRound ((w : ℚ) * (s : ℚ) / 100), jsRound ((h : ℚ) * (s : ℚ) / 100)) ∧
    0 ≤ (calculateScaledDimensions (w : ℚ) (h : ℚ) (s : ℚ)).1 ∧
    0 ≤ (calculateScaledDimensions (w : ℚ) (h : ℚ) (s : ℚ)).2 ∧
    (s = 100 → calculateScaledDimensions (w : ℚ) (h : ℚ) (s : ℚ) = (w, h)) := by
  have hwq : (0 : ℚ) < (w : ℚ) := by exact_mod_cast hw
  have hhq : (0 : ℚ) < (h : ℚ) := by exact_mod_cast hh
  have hsq : (0 : ℚ) < (s : ℚ) := by
    have : (0 : ℤ) < s := by linarith
    exact_mod_cast this
  refine ⟨?_, ?_, ?_, ?_⟩
  · simp [calculateScaledDimensions, mul_div_assoc]
  · exact jsRound_nonneg (by positivity)
  · exact jsRound_nonneg (by positivity)
  · intro hs
    subst hs
    simp [calculateScaledDimensions]
    norm_num [jsRound_intCast]

/-- Witness: C2 evaluated at the 200 × 150 source image at 100 %. -/
theorem C2_witness :
    (0 : ℤ) < 200 ∧ (0 : ℤ) < 150 ∧ (25 : ℤ) ≤ 100 ∧ (100 : ℤ) ≤ 200 ∧
    calculateScaledDimensions ((200 : ℤ) : ℚ) ((150 : ℤ) : ℚ) ((100 : ℤ) : ℚ) =
      (((200 : ℤ)), ((150 : ℤ))) :=
  ⟨by norm_num, by norm_num, by norm_num, by norm_num,
   (C2_calculateScaledDimensions_spec 200 150 100 (by norm_num) (by norm_num)
     (by norm_num) (by norm_num)).2.2.2 rfl⟩

/-- C3: `calculateBlurScale` is the larger of the two surface/content axis
ratios; multiplying either content dimension by it covers the corresponding
surface dimension; and the two cited concrete cases evaluate to 2 and 4. -/
theorem C3_calculateBlurScale_spec (contentW contentH surfaceW surfaceH : ℚ)
    (h1 : 0 < contentW) (h2 : 0 < contentH) :
    calculateBlurScale contentW contentH surfaceW surfaceH =
      max (surfaceW / contentW) (surfaceH / contentH) ∧
    surfaceW ≤ contentW * calculateBlurScale contentW contentH surfaceW surfaceH ∧
    surfaceH ≤ contentH * calculateBlurScale contentW contentH surfaceW surfaceH ∧
    calculateBlurScale 400 300 800 600 = 2 ∧
    calculateBlurScale 200 600 800 400 = 4 := by
  refine ⟨rfl, ?_, ?_, by norm_num [calculateBlurScale], by norm_num [calculateBlurScale]⟩
  · have hx : surfaceW / contentW ≤ calculateBlurScale contentW contentH surfaceW surfaceH :=
      le_max_left _ _
    have hmul := mul_le_mul_of_nonneg_left hx h1.le
    have hcancel : contentW * (surfaceW / contentW) = surfaceW := by
      field_simp
    linarith
  · have hy : surfaceH / contentH ≤ calculateBlurScale contentW contentH surfaceW surfaceH :=
      le_max_right _ _
    have hmul := mul_le_mul_of_nonneg_left hy h2.le
    have hcancel : contentH * (surfaceH / contentH) = surfaceH := by
      field_simp
    linarith

/-- C5: with a positive border width the border renderer issues exactly one
stroke-rectangle, outset by half the width, with the configured color and
thickness; with width 0 it issues no call at all. -/
theorem C5_drawImageBorder_spec (x y sw sh bw : ℚ) (c : String)
    (_h0 : 0 ≤ bw) (_h50 : bw ≤ 50) :
    (0 < bw →
      drawImageBorder (x, y) (sw, sh) ⟨bw, c⟩ =
        [.setStrokeStyle c, .setLineWidth bw,
         .strokeRect (x - bw / 2) (y - bw / 2) (sw + bw) (sh + bw)] ∧
      (drawImageBorder (x, y) (sw, sh) ⟨bw, c⟩).countP isStrokeRect = 1) ∧
    (bw = 0 → drawImageBorder (x, y) (sw, sh) ⟨bw, c⟩ = []) := by
  constructor
  · intro hpos
    have hne : bw ≠ 0 := ne_of_gt hpos
    constructor
    · simp [drawImageBorder, hne]
    · simp [drawImageBorder, hne, List.countP_cons, isStrokeRect]
  · intro hz
    simp [drawImageBorder, hz]

/-- Witness: C5 evaluated at position (100,50), size (200,150), border width 10,
giving the stroke rectangle (95,45,210,160). -/
theorem C5_witness :
    (0 : ℚ) ≤ 10 ∧ (10 : ℚ) ≤ 50 ∧ (0 : ℚ) < 10 ∧
    drawImageBorder ((100 : ℚ), 50) (200, 150) ⟨10, "#000000"⟩ =
      [.setStrokeStyle "#000000", .setLineWidth 10, .strokeRect 95 45 210 160] := by
  refine ⟨by norm_num, by norm_num, by norm_num, ?_⟩
  have h := ((C5_drawImageBorder_spec 100 50 200 150 10 "#000000"
    (by norm_num) (by norm_num)).1 (by norm_num)).1
  norm_num at h
  exact h

/-- C6: after the image-variant background draw the context filter is `'none'`,
and the fill style, stroke style and line width the function never touches are
exactly those of the incoming context state. -/
theorem C6_drawBlurredBackground_resets_filter (img : SourceImage) (w h : ℚ)
    (st : CtxState) :
    (applyOps st (drawBlurredBackground (some img) w h)).filter = "none" ∧
    (applyOps st (drawBlurredBackground (some img) w h)).fillStyle = st.fillStyle ∧
    (applyOps st (drawBlurredBackground (some img) w h)).strokeStyle = st.strokeStyle ∧
    (applyOps st (drawBlurredBackground (some img) w h)).lineWidth = st.lineWidth := by
  simp [drawBlurredBackground, applyOps, applyOp]

lemma countP_strokeRect_drawBackgroundByType (t : BackgroundType) (c : String)
    (img : Option SourceImage) (w h : ℚ) :
    (drawBackgroundByType t c img w h).countP isStrokeRect = 0 := by
  cases t <;> cases img <;>
    simp [drawBackgroundByType, drawBackground, drawBlurredBackground,
      List.countP_cons, isStrokeRect]

/-- C7: when the image element or the uploaded-image handle is absent, one
preview pass sets the canvas to the settings dimensions and issues exactly the
background trace — no foreground draw-image, no stroke call — and returns
normally. -/
theorem C7_updatePreview_background_only (settings : CanvasSettings)
    (imageElement : Option SourceImage) (uploadedImage : Bool)
    (habs : imageElement = none ∨ uploadedImage = false) :
    updatePreview settings imageElement uploadedImage =
      ((settings.width, settings.height),
       drawBackgroundByType settings.backgroundType settings.backgroundColor
         imageElement settings.width settings.height) ∧
    (updatePreview settings imageElement uploadedImage).2.countP isStrokeRect = 0 := by
  have hfg : updatePreview settings imageElement uploadedImage =
      ((settings.width, settings.height),
       drawBackgroundByType settings.backgroundType settings.backgroundColor
         imageElement settings.width settings.height) := by
    rcases habs with h | h
    · subst h
      simp [updatePreview]
    · subst h
      cases imageElement <;> simp [updatePreview]
  refine ⟨hfg, ?_⟩
  rw [hfg]
  exact countP_strokeRect_drawBackgroundByType _ _ _ _ _

/-- Witness: C7 evaluated with default settings and no decoded image. -/
theorem C7_witness :
    updatePreview ⟨800, 600, 100, "#ffffff", .color, ⟨10, "#ffffff"⟩⟩ none true =
      ((800, 600),
       drawBackgroundByType .color "#ffffff" none 800 600) ∧
    (updatePreview ⟨800, 600, 100, "#ffffff", .color, ⟨10, "#ffffff"⟩⟩ none true).2.countP
      isStrokeRect = 0 :=
  C7_updatePreview_background_only ⟨800, 600, 100, "#ffffff", .color, ⟨10, "#ffffff"⟩⟩
    none true (Or.inl rfl)

/-- C8: with the image background variant selected and no source image, the
background renderer deterministically falls back to the Color variant — the
trace is exactly clear followed by a fill with the background color. -/
theorem C8_drawBackgroundByType_fallback (color : String) (w h : ℚ) :
    drawBackgroundByType .image color none w h = drawBackground color w h ∧
    drawBackgroundByType .image color none w h =
      [.clearRect 0 0 w h, .setFillStyle color, .fillRect 0 0 w h] :=
  ⟨rfl, rfl⟩

/-- C10: `validateImageFile` accepts exactly the five allowed MIME types at or
under 5 MiB, and a file it rejects never reaches the decode step of
`handleImageUpload`. -/
theorem C10_validateImageFile_spec (f : JSFile) :
    (validateImageFile f = true ↔
      ((f.type = "image/jpeg" ∨ f.type = "image/jpg" ∨ f.type = "image/png" ∨
        f.type = "image/gif" ∨ f.type = "image/webp") ∧
       f.size ≤ 5 * 1024 * 1024)) ∧
    (validateImageFile f = false → handleImageUpload (some f) = .rejected) := by
  constructor
  · simp [validateImageFile, ALLOWED_TYPES, MAX_FILE_SIZE]
  · intro hv
    simp [handleImageUpload, hv]

/-- Witness: C10 applied to a rejected text file, which never starts a decode. -/
theorem C10_witness :
    validateImageFile ⟨"text/plain", 10⟩ = false ∧
    handleImageUpload (some ⟨"text/plain", 10⟩) = .rejected := by
  have hfalse : validateImageFile ⟨"text/plain", 10⟩ = false := by
    simp [validateImageFile, ALLOWED_TYPES]
  exact ⟨hfalse, (C10_validateImageFile_spec ⟨"text/plain", 10⟩).2 hfalse⟩

/-- C4 counterexample: with content width 0 (and height 300, surface 800 × 600)
the cover-scale computation is evaluated with no guard and returns the defined
JavaScript number `Infinity` — the division-by-zero branch is reached, and no
error is raised. -/
theorem C4_counterexample :
    jsCalculateBlurScale 0 300 800 600 = JSNum.posInf := by
  norm_num [jsCalculateBlurScale, jsDivQ, jsMax]

/-- C4 amended: `calculateBlurScale` has no zero guard — whenever the content
width is 0, the content height positive and the surface width positive, it
still evaluates and returns `Infinity`, which `Math.max` propagates; away from
zero content dimensions it agrees with the exact rational model. -/
theorem C4_amended_no_guard (contentH surfaceW surfaceH : ℚ)
    (hh : 0 < contentH) (hw : 0 < surfaceW) :
    jsCalculateBlurScale 0 contentH surfaceW surfaceH = JSNum.posInf ∧
    (∀ cw : ℚ, 0 < cw →
      jsCalculateBlurScale cw contentH surfaceW surfaceH =
        JSNum.fin (calculateBlurScale cw contentH surfaceW surfaceH)) := by
  constructor
  · have hx : jsDivQ surfaceW 0 = JSNum.posInf := by
      simp [jsDivQ, hw.ne', hw]
    have hy : jsDivQ surfaceH contentH = JSNum.fin (surfaceH / contentH) := by
      simp [jsDivQ, hh.ne']
    simp [jsCalculateBlurScale, hx, hy, jsMax]
  · intro cw hcw
    have hx : jsDivQ surfaceW cw = JSNum.fin (surfaceW / cw) := by
      simp [jsDivQ, hcw.ne']
    have hy : jsDivQ surfaceH contentH = JSNum.fin (surfaceH / contentH) := by
      simp [jsDivQ, hh.ne']
    simp [jsCalculateBlurScale, hx, hy, jsMax, calculateBlurScale]

/-- Witness: C4 amended, evaluated at content height 300 against an 800 × 600
surface. -/
theorem C4_witness :
    (0 : ℚ) < 300 ∧ (0 : ℚ) < 800 ∧
    jsCalculateBlurScale 0 300 800 600 = JSNum.posInf :=
  ⟨by norm_num, by norm_num,
   (C4_amended_no_guard 300 800 600 (by norm_num) (by norm_num)).1⟩

/-- C9 counterexample: typing 5000 into the width field (no render, since
`handleSizeChange` rejects it) and then moving the scale slider causes
`handleScaleChange` to render with the raw width 5000 still in the DOM — an
out-of-range value reaches the settings object passed to rendering before any
blur validation resets it. -/
theorem C9_counterexample :
    (runUI [.editWidth (some 5000), .editScale 100]).renders =
      [⟨some 5000, some 600, 100, some 10⟩] ∧
    validateSizeInput (some 5000) = false := by
  constructor
  · decide
  · decide

/-- C9 amended: each validated field's own events are guarded — a width,
height or border-width edit renders only when the new value is a valid
in-range integer (and then with exactly that value), and after a blur the
stored value is always valid, an invalid one having been reset to its default
(800, 600, 10) with the user alerted; but a render triggered by another
control reads the raw field value without re-validation. -/
theorem C9_amended_boundary (s : UIState) (v : ParsedInt) :
    ((validateSizeInput v = false → (step s (.editWidth v)).renders = s.renders) ∧
     (validateSizeInput v = true →
       (step s (.editWidth v)).renders =
         s.renders ++ [⟨v, s.heightVal, s.scaleVal, s.borderWidthVal⟩]) ∧
     validateSizeInput ((step s .blurWidth).widthVal) = true ∧
     (validateSizeInput s.widthVal = false →
       (step s .blurWidth).widthVal = some 800 ∧
       (step s .blurWidth).alerts = s.alerts + 1)) ∧
    ((validateSizeInput v = false → (step s (.editHeight v)).renders = s.renders) ∧
     (validateSizeInput v = true →
       (step s (.editHeight v)).renders =
         s.renders ++ [⟨s.widthVal, v, s.scaleVal, s.borderWidthVal⟩]) ∧
     validateSizeInput ((step s .blurHeight).heightVal) = true ∧
     (validateSizeInput s.heightVal = false →
       (step s .blurHeight).heightVal = some 600 ∧
       (step s .blurHeight).alerts = s.alerts + 1)) ∧
    ((validateBorderWidth v = false →
       (step s (.editBorderWidth v)).renders = s.renders) ∧
     (validateBorderWidth v = true →
       (step s (.editBorderWidth v)).renders =
         s.renders ++ [⟨s.widthVal, s.heightVal, s.scaleVal, v⟩]) ∧
     validateBorderWidth ((step s .blurBorderWidth).borderWidthVal) = true ∧
     (validateBorderWidth s.borderWidthVal = false →
       (step s .blurBorderWidth).borderWidthVal = some 10 ∧
       (step s .blurBorderWidth).alerts = s.alerts + 1)) := by
  refine ⟨⟨?_, ?_, ?_, ?_⟩, ⟨?_, ?_, ?_, ?_⟩, ⟨?_, ?_, ?_, ?_⟩⟩
  · intro hv
    simp [step, hv]
  · intro hv
    have hs : v.isSome = true := by
      cases v with
      | none => simp [validateSizeInput] at hv
      | some n => rfl
    simp [step, hv, hs, recordRender, getSettingsSnapshot]
  · by_cases hv : validateSizeInput s.widthVal = true
    · simp [step, hv]
    · have hv' : validateSizeInput s.widthVal = false := by
        simpa using hv
      simp only [step, hv', Bool.false_eq_true, if_false, recordRender]
      decide
  · intro hv
    simp [step, hv, recordRender]
  · intro hv
    simp [step, hv]
  · intro hv
    have hs : v.isSome = true := by
      cases v with
      | none => simp [validateSizeInput] at hv
      | some n => rfl
    simp [step, hv, hs, recordRender, getSettingsSnapshot]
  · by_cases hv : validateSizeInput s.heightVal = true
    · simp [step, hv]
    · have hv' : validateSizeInput s.heightVal = false := by
        simpa using hv
      simp only [step, hv', Bool.false_eq_true, if_false, recordRender]
      decide
  · intro hv
    simp [step, hv, recordRender]
  · intro hv
    simp [step, hv]
  · intro hv
    have hs : v.isSome = true := by
      cases v with
      | none => simp [validateBorderWidth] at hv
      | some n => rfl
    simp [step, hv, hs, recordRender, getSettingsSnapshot]
  · by_cases hv : validateBorderWidth s.borderWidthVal = true
    · simp [step, hv]
    · have hv' : validateBorderWidth s.borderWidthVal = false := by
        simpa using hv
      simp only [step, hv', Bool.false_eq_true, if_false, recordRender]
      decide
  · intro hv
    simp [step, hv, recordRender]

/-- Witness: C9 amended, at the initial state: the out-of-range width entry
5000 and the out-of-range border-width entry 99 each produce no render from
their own edit event. -/
theorem C9_witness :
    validateSizeInput (some 5000) = false ∧
    (step initState (.editWidth (some 5000))).renders = initState.renders ∧
    validateBorderWidth (some 99) = false ∧
    (step initState (.editBorderWidth (some 99))).renders = initState.renders :=
  ⟨by decide, (C9_amended_boundary initState (some 5000)).1.1 (by decide),
   by decide, (C9_amended_boundary initState (some 99)).2.2.1 (by decide)⟩

/-- C1 counterexample: with color background and border width 10 the preview
pass strokes the border while the export pass never does — the two traces
differ for settings both claims range over. -/
theorem C1_counterexample :
    (updatePreview ⟨800, 600, 100, "#ffffff", .color, ⟨10, "#000000"⟩⟩
        (some ⟨200, 150⟩) true).2 ≠
      renderToDownloadCanvas ⟨200, 150⟩
        ⟨800, 600, 100, "#ffffff", .color, ⟨10, "#000000"⟩⟩ := by
  intro hEq
  have hlen := congrArg List.length hEq
  norm_num [updatePreview, drawBackgroundByType, drawBackground, drawImageOnCanvas,
    drawImageBorder, renderToDownloadCanvas] at hlen

/-- C1 amended: the preview and export passes issue identical operation
sequences on identically sized surfaces exactly on the settings the export path
implements — color background and zero border width; with an image background
or a positive border the preview diverges from the export. -/
theorem C1_amended_consistency (settings : CanvasSettings) (img : SourceImage)
    (hbg : settings.backgroundType = .color) (hbw : settings.border.width = 0) :
    (updatePreview settings (some img) true).1 = createDownloadCanvas settings ∧
    (updatePreview settings (some img) true).2 = renderToDownloadCanvas img settings := by
  obtain ⟨w, h, sc, bc, bt, bd⟩ := settings
  obtain ⟨bw, bcol⟩ := bd
  simp only at hbg hbw
  subst hbg
  subst hbw
  constructor
  · rfl
  · simp [updatePreview, drawBackgroundByType, drawBackground, drawImageOnCanvas,
      renderToDownloadCanvas, calculateScaledDimensions, calculateCenterPosition,
      createDownloadCanvas]

/-- Witness: C1 amended, evaluated at the default 800 × 600 color-background
settings with zero border and the 200 × 150 source image. -/
theorem C1_witness :
    (updatePreview ⟨800, 600, 100, "#ffffff", .color, ⟨0, "#000000"⟩⟩
        (some ⟨200, 150⟩) true).1 =
      createDownloadCanvas ⟨800, 600, 100, "#ffffff", .color, ⟨0, "#000000"⟩⟩ ∧
    (updatePreview ⟨800, 600, 100, "#ffffff", .color, ⟨0, "#000000"⟩⟩
        (some ⟨200, 150⟩) true).2 =
      renderToDownloadCanvas ⟨200, 150⟩
        ⟨800, 600, 100, "#ffffff", .color, ⟨0, "#000000"⟩⟩ :=
  C1_amended_consistency ⟨800, 600, 100, "#ffffff", .color, ⟨0, "#000000"⟩⟩
    ⟨200, 150⟩ rfl rfl

/-- Witness: C3 evaluated at the 400 × 300 content against an 800 × 600 surface. -/
theorem C3_witness :
    (0 : ℚ) < 400 ∧ (0 : ℚ) < 300 ∧
    calculateBlurScale 400 300 800 600 = max (800 / 400 : ℚ) (600 / 300 : ℚ) ∧
    (800 : ℚ) ≤ 400 * calculateBlurScale 400 300 800 600 ∧
    (600 : ℚ) ≤ 300 * calculateBlurScale 400 300 800 600 :=
  ⟨by norm_num, by norm_num,
   (C3_calculateBlurScale_spec 400 300 800 600 (by norm_num) (by norm_num)).1,
   (C3_calculateBlurScale_spec 400 300 800 600 (by norm_num) (by norm_num)).2.1,
   (C3_calculateBlurScale_spec 400 300 800 600 (by norm_num) (by norm_num)).2.2.1⟩
